import Mathlib

/-!
Shallow embedding of `bloodyAD/utils.py` (knightswd/bloodyAD) and proofs of
the specification's claims about it.

Bytes are modelled as `Nat` values (< 256 at every construction site),
byte strings as `List Nat`, Python `int` as `Int` where two's-complement
bitwise operations matter, and the LDAP / SAMR collaborators as explicit
oracle structures.  Each definition mirrors the corresponding Python
function; the impacket / ldap3 structures the source populates are
modelled as plain records.
-/

namespace BloodyAD

/-! ### Generic helpers -/

/-- Python `str.lower()` restricted to the ASCII range, which is all the
source ever lowercases (`"dc="`, `"s-1-"`). -/
def strLower (s : String) : String :=
  String.mk (s.toList.map Char.toLower)

/-- Substring containment on character lists: Python's `needle in hay`. -/
def containsSub (needle : List Char) : List Char → Bool
  | [] => needle.isEmpty
  | c :: rest => needle.isPrefixOf (c :: rest) || containsSub needle rest

/-- Python `needle in hay` for strings. -/
def strContains (needle hay : String) : Bool :=
  containsSub needle.toList hay.toList

/-- Little-endian byte encoding of `v` on exactly `k` bytes
(`struct.pack('<L', v)` and friends). -/
def toLEBytes : Nat → Nat → List Nat
  | 0, _ => []
  | k + 1, v => (v % 256) :: toLEBytes k (v / 256)

/-- Big-endian byte encoding of `v` on exactly `k` bytes. -/
def toBEBytes (k v : Nat) : List Nat :=
  (toLEBytes k v).reverse

/-- Python `s.split(sep)` for a one-character separator, over character
lists (keeps empty pieces, as Python does). -/
def splitOnChar (sep : Char) : List Char → List (List Char)
  | [] => [[]]
  | c :: rest =>
      if c = sep then [] :: splitOnChar sep rest
      else
        match splitOnChar sep rest with
        | g :: gs => (c :: g) :: gs
        | [] => [[c]]

/-- Python `s.split('-')`. -/
def splitDash (s : String) : List String :=
  (splitOnChar '-' s.toList).map String.mk

/-- Value of a decimal digit character. -/
def decDigit (c : Char) : Option Nat :=
  if '0' ≤ c ∧ c ≤ '9' then some (c.toNat - '0'.toNat) else none

/-- Python `int(s)` on decimal-digit strings (`none` on any other
character). -/
def strToNat (s : String) : Option Nat :=
  s.toList.foldl
    (fun acc c =>
      match acc, decDigit c with
      | some v, some d => some (v * 10 + d)
      | _, _ => none)
    (some 0)

/-- Value of a hexadecimal digit character. -/
def hexDigit (c : Char) : Option Nat :=
  if '0' ≤ c ∧ c ≤ '9' then some (c.toNat - '0'.toNat)
  else if 'a' ≤ c ∧ c ≤ 'f' then some (c.toNat - 'a'.toNat + 10)
  else if 'A' ≤ c ∧ c ≤ 'F' then some (c.toNat - 'A'.toNat + 10)
  else none

/-- Value of a hexadecimal string (Python `int(s, 16)` on already-matched
regex groups; `none` on a non-hex character). -/
def hexVal (s : String) : Option Nat :=
  s.toList.foldl
    (fun acc c =>
      match acc, hexDigit c with
      | some v, some d => some (v * 16 + d)
      | _, _ => none)
    (some 0)

/-! ### SID codec (impacket `LDAP_SID.fromCanonical`, a collaborator of the
source; the spec's §4.1 SID Codec) -/

/-- Parsed form of a canonical `S-R-I-S-S...` security identifier. -/
structure LDAP_SID where
  revision : Nat
  identifierAuthority : Nat
  subAuthorities : List Nat
deriving DecidableEq, Repr, Inhabited

/-- `LDAP_SID().fromCanonical(s)`: split on `-`, drop the leading `S`,
then revision, identifier authority and the sub-authorities. -/
def LDAP_SID.fromCanonical (s : String) : LDAP_SID :=
  match splitDash s with
  | _ :: rev :: auth :: subs =>
      { revision := (strToNat rev).getD 0
        identifierAuthority := (strToNat auth).getD 0
        subAuthorities := subs.map (fun x => (strToNat x).getD 0) }
  | _ => default

/-! ### GUID codec (impacket `uuid.string_to_bin`, a collaborator of the
source): `pack('<LHH', u1, u2, u3) + pack('>HHL', u4, u5, u6)` over the
five dash-separated hex groups, the last group split 4 + 8. -/

/-- Shape check for a canonical `8-4-4-4-12` hexadecimal GUID string. -/
def isHexStr (s : String) (n : Nat) : Bool :=
  s.length = n && s.toList.all (fun c => (hexDigit c).isSome)

/-- A canonical GUID string: five dash-separated hex groups of lengths
8, 4, 4, 4 and 12. -/
def validGuidStr (u : String) : Bool :=
  match splitDash u with
  | [a, b, c, d, e] =>
      isHexStr a 8 && isHexStr b 4 && isHexStr c 4 && isHexStr d 4 && isHexStr e 12
  | _ => false

/-- impacket `uuid.string_to_bin`: the 16-byte mixed-endian binary GUID.
Returns `[]` where the original would fail its regex match. -/
def string_to_bin (u : String) : List Nat :=
  match splitDash u with
  | [a, b, c, d, e] =>
      match hexVal a, hexVal b, hexVal c, hexVal d,
          hexVal (String.mk (e.toList.take 4)), hexVal (String.mk (e.toList.drop 4)) with
      | some u1, some u2, some u3, some u4, some u5, some u6 =>
          toLEBytes 4 u1 ++ toLEBytes 2 u2 ++ toLEBytes 2 u3 ++
            toBEBytes 2 u4 ++ toBEBytes 2 u5 ++ toBEBytes 4 u6
      | _, _, _, _, _, _ => []
  | _ => []

/-! ### ACE builder (`createACE`, utils.py lines 14-38) -/

/-- impacket `ldaptypes.ACCESS_ALLOWED_ACE.ACE_TYPE` (MS-DTYP 0x00). -/
def ACCESS_ALLOWED_ACE_ACE_TYPE : Nat := 0x00

/-- impacket `ldaptypes.ACCESS_ALLOWED_OBJECT_ACE.ACE_TYPE` (MS-DTYP 0x05). -/
def ACCESS_ALLOWED_OBJECT_ACE_ACE_TYPE : Nat := 0x05

/-- impacket `ldaptypes.ACCESS_ALLOWED_OBJECT_ACE.ACE_OBJECT_TYPE_PRESENT`. -/
def ACE_OBJECT_TYPE_PRESENT : Nat := 0x01

/-- Body of a plain `ACCESS_ALLOWED_ACE`: access mask and subject SID. -/
structure ACCESS_ALLOWED_ACE where
  mask : Nat
  sid : LDAP_SID
deriving DecidableEq, Repr

/-- Body of an `ACCESS_ALLOWED_OBJECT_ACE`: flags, object type,
inherited object type, access mask and subject SID. -/
structure ACCESS_ALLOWED_OBJECT_ACE where
  flags : Nat
  objectType : List Nat
  inheritedObjectType : List Nat
  mask : Nat
  sid : LDAP_SID
deriving DecidableEq, Repr

/-- The two ACE body variants `createACE` can build. -/
inductive AceData where
  | allowed (a : ACCESS_ALLOWED_ACE)
  | allowedObject (a : ACCESS_ALLOWED_OBJECT_ACE)
deriving DecidableEq, Repr

/-- impacket `ldaptypes.ACE`: outer type tag, outer flags byte, body. -/
structure ACE where
  aceType : Nat
  aceFlags : Nat
  ace : AceData
deriving DecidableEq, Repr

/-- The `sid` argument of `createACE` is either a canonical string
(run through `fromCanonical`) or an already-built `LDAP_SID`. -/
def sidOfArg : Sum String LDAP_SID → LDAP_SID
  | .inl s => LDAP_SID.fromCanonical s
  | .inr sd => sd

/-- `createACE(sid, privguid=None, accesstype=983551)` (utils.py 15-38).
Note the source sets `nace['AceType']` to
`ACCESS_ALLOWED_OBJECT_ACE.ACE_TYPE` unconditionally, before the
`privguid` branch chooses the body structure. -/
def createACE (sid : Sum String LDAP_SID) (privguid : Option String := none)
    (accesstype : Nat := 983551) : ACE :=
  let aceType := ACCESS_ALLOWED_OBJECT_ACE_ACE_TYPE
  let acedata : AceData :=
    match privguid with
    | none => .allowed { mask := accesstype, sid := sidOfArg sid }
    | some g =>
        .allowedObject
          { flags := ACE_OBJECT_TYPE_PRESENT
            objectType := string_to_bin g
            inheritedObjectType := []
            mask := accesstype
            sid := sidOfArg sid }
  { aceType := aceType, aceFlags := 0x00, ace := acedata }

/-! ### Security descriptor assembler (`createEmptySD`, utils.py 41-57) -/

/-- impacket `ldaptypes.ACL`: revision tag, two reserved bytes, ACEs. -/
structure ACL where
  aclRevision : Nat
  sbz1 : Nat
  sbz2 : Nat
  aces : List ACE
deriving DecidableEq, Repr

/-- impacket `ldaptypes.SR_SECURITY_DESCRIPTOR` as populated by the
source: raw byte fields kept as byte lists, the DACL structured. -/
structure SR_SECURITY_DESCRIPTOR where
  revision : List Nat
  sbz1 : List Nat
  control : Nat
  ownerSid : LDAP_SID
  groupSid : List Nat
  sacl : List Nat
  dacl : ACL
deriving DecidableEq, Repr

/-- `createEmptySD()` (utils.py 41-57). -/
def createEmptySD : SR_SECURITY_DESCRIPTOR :=
  { revision := [0x01]
    sbz1 := [0x00]
    control := 32772
    ownerSid := LDAP_SID.fromCanonical "S-1-5-32-544"
    groupSid := []
    sacl := []
    dacl :=
      { aclRevision := 4
        sbz1 := 0
        sbz2 := 0
        aces := [] } }

/-! ### Identifier resolver (`resolvDN`, utils.py 60-97) -/

/-- One entry of an ldap3 search response: its `type` tag and its `dn`.
`etype` models `e.get('type', '')`. -/
structure Entry where
  etype : String
  dn : String
deriving DecidableEq, Repr

/-- The typed errors raised by the source (`exceptions.py` collaborators),
plus the Python `IndexError` surfaced by `conn.entries[0]` on an empty
read in `userAccountControl`. -/
inductive BloodyError where
  | noResult (base ldapFilter : String)
  | tooManyResults (base ldapFilter : String) (entries : List Entry)
  | resultError (code : Nat)
  | indexError
deriving DecidableEq, Repr

/-- Oracle model of the ldap3 `Connection` collaborator: the server's
default naming context, the response of `conn.search(base, filter)`, the
`userAccountControl` values of `conn.entries` after the attribute search
at a DN, and the result code exposed after `conn.modify`. -/
structure Conn where
  defaultNamingContext : String
  search : String → String → List Entry
  uacOf : String → List Int
  modifyResult : Nat

/-- `getDefaultNamingContext(conn)` (utils.py 100-102). -/
def getDefaultNamingContext (conn : Conn) : String :=
  conn.defaultNamingContext

/-- The LDAP filter `resolvDN` builds for a non-DN identity
(utils.py 75-83): SID, then GUID, then sAMAccountName. -/
def ldapFilterFor (identity : String) : String :=
  if strContains "s-1-" (strLower identity) then
    "(objectSid=" ++ identity ++ ")"
  else if strContains "\x7b" identity then
    "(objectGUID=" ++ identity ++ ")"
  else
    "(sAMAccountName=" ++ identity ++ ")"

/-- `resolvDN(conn, identity)` (utils.py 60-97). -/
def resolvDN (conn : Conn) (identity : String) : Except BloodyError String :=
  if strContains "dc=" (strLower identity) then
    .ok identity
  else
    let ldap_filter := ldapFilterFor identity
    let naming_context := getDefaultNamingContext conn
    let entries :=
      (conn.search naming_context ldap_filter).filter
        (fun e => e.etype == "searchResEntry")
    match entries with
    | [] => .error (.noResult naming_context ldap_filter)
    | [e] => .ok e.dn
    | es => .error (.tooManyResults naming_context ldap_filter es)

/-! ### Account-control flag toggler (`userAccountControl`, utils.py 127-147) -/

/-- Line 128: `enable = enable == "True"`. -/
def uacEnable (enable : String) : Bool :=
  enable == "True"

/-- Lines 136-139: the updated bitmask value, with Python's
arbitrary-precision two's-complement semantics (`|`, `& ~`). -/
def newUac (enable : Bool) (v flag : Int) : Int :=
  if enable then Int.lor v flag else Int.land v (Int.lnot flag)

/-- One `conn.modify` call: DN, attribute, operation tag, values. -/
structure ModifyOp where
  dn : String
  attrName : String
  operation : String
  values : List Int
deriving DecidableEq, Repr

/-- Observable outcome of `userAccountControl`: the modify calls made,
and either success or the raised error. -/
structure UacOutcome where
  submitted : List ModifyOp
  result : Except BloodyError Unit
deriving Repr

/-- `userAccountControl(conn, identity, enable, flag)` (utils.py 127-147). -/
def userAccountControl (conn : Conn) (identity enable : String) (flag : Int) :
    UacOutcome :=
  let en := uacEnable enable
  match resolvDN conn identity with
  | .error e => { submitted := [], result := .error e }
  | .ok user_dn =>
      match conn.uacOf user_dn with
      | [] => { submitted := [], result := .error .indexError }
      | v :: _ =>
          let updated := newUac en v flag
          let op : ModifyOp :=
            { dn := user_dn
              attrName := "userAccountControl"
              operation := "MODIFY_REPLACE"
              values := [updated] }
          { submitted := [op]
            result :=
              if conn.modifyResult = 0 then .ok ()
              else .error (.resultError conn.modifyResult) }

/-! ### Password encryption (`cryptPassword`, utils.py 105-124) -/

/-- UTF-16LE bytes of one Unicode scalar value (surrogate pair above
`0x10000`). -/
def utf16leChar (c : Char) : List Nat :=
  let n := c.toNat
  if n < 0x10000 then [n % 256, n / 256]
  else
    let v := n - 0x10000
    let hi := 0xD800 + v / 0x400
    let lo := 0xDC00 + v % 0x400
    [hi % 256, hi / 256, lo % 256, lo / 256]

/-- Python `password.encode('utf-16le')`. -/
def encodeUtf16le (s : String) : List Nat :=
  (s.toList.map utf16leChar).flatten

/-- impacket `samr.SAMPR_USER_PASSWORD`: 512-byte buffer, 4-byte length. -/
structure SAMPR_USER_PASSWORD where
  buffer : List Nat
  length : Nat
deriving DecidableEq, Repr

/-- `SAMPR_USER_PASSWORD.getData()`: the buffer followed by the length as
a 4-byte little-endian integer. -/
def SAMPR_USER_PASSWORD.getData (p : SAMPR_USER_PASSWORD) : List Nat :=
  p.buffer ++ toLEBytes 4 p.length

/-- impacket `samr.SAMPR_ENCRYPTED_USER_PASSWORD`: the ciphertext. -/
structure SAMPR_ENCRYPTED_USER_PASSWORD where
  buffer : List Nat
deriving DecidableEq, Repr

/-- Lines 113-116 of `cryptPassword`: encode, left-pad with `b'A'` to 512
bytes (Python's `b'A' * (512 - plen)` is empty once `plen > 512`), and
record the true encoded length. -/
def samUserPass (password : String) : SAMPR_USER_PASSWORD :=
  let encoded_pass := encodeUtf16le password
  let plen := encoded_pass.length
  { buffer := List.replicate (512 - plen) 0x41 ++ encoded_pass
    length := plen }

/-- Swap positions `i` and `j` of a byte list (RC4 state update). -/
def swapL (l : List Nat) (i j : Nat) : List Nat :=
  let a := l.getD i 0
  let b := l.getD j 0
  (l.set i b).set j a

/-- RC4 key schedule (Cryptodome `ARC4.new(key)`): returns the permuted
256-byte state. -/
def rc4ksa (key : List Nat) : List Nat :=
  let init : List Nat × Nat := (List.range 256, 0)
  let final :=
    (List.range 256).foldl
      (fun st i =>
        let S := st.1
        let j := (st.2 + S.getD i 0 + key.getD (i % key.length) 0) % 256
        (swapL S i j, j))
      init
  final.1

/-- RC4 keystream generator: `n` bytes from state `(S, i, j)`. -/
def rc4prga : Nat → List Nat × Nat × Nat → List Nat
  | 0, _ => []
  | n + 1, (S, i, j) =>
      let i' := (i + 1) % 256
      let j' := (j + S.getD i' 0) % 256
      let S' := swapL S i' j'
      let k := S'.getD ((S'.getD i' 0 + S'.getD j' 0) % 256) 0
      k :: rc4prga n (S', i', j')

/-- RC4 encryption (`ARC4.new(key).encrypt(data)`): XOR of the data with
the keystream. -/
def rc4encrypt (key data : List Nat) : List Nat :=
  List.zipWith Nat.xor data (rc4prga data.length (rc4ksa key, 0, 0))

/-- `cryptPassword(session_key, password)` (utils.py 105-124). -/
def cryptPassword (session_key : List Nat) (password : String) :
    SAMPR_ENCRYPTED_USER_PASSWORD :=
  let sam_user_pass := samUserPass password
  let pwdBuff := sam_user_pass.getData
  let encBuf := rc4encrypt session_key pwdBuff
  { buffer := encBuf }

/-! ### Credential reset (`rpcChangePassword`, utils.py 150-177) -/

/-- The byte values of the fixed key `b'SystemLibraryDTC'` (utils.py 173). -/
def systemLibraryDTC : List Nat :=
  "SystemLibraryDTC".toList.map Char.toNat

/-- impacket `samr.USER_INFORMATION_CLASS.UserInternal5Information`. -/
def UserInternal5Information : Nat := 18

/-- The `SamrSetInformationUser2` request the source builds
(utils.py 168-174). -/
structure SamrSetInfoReq where
  userHandle : Nat
  userInformationClass : Nat
  bufferTag : Nat
  userPassword : SAMPR_ENCRYPTED_USER_PASSWORD
  passwordExpired : Nat
deriving DecidableEq, Repr

/-- One remote SAMR call, in the order the source issues them. -/
inductive SamrEvent where
  | connect (server : String)
  | lookupDomain (serverHandle : Nat) (domain : String)
  | openDomain (serverHandle : Nat) (domainSid : Nat)
  | lookupNames (domainHandle : Nat) (target : String)
  | openUser (domainHandle : Nat) (rid : Nat)
  | setInfo (req : SamrSetInfoReq)
deriving DecidableEq, Repr

/-- Oracle model of the SAMR RPC collaborator: what each remote call
returns, as functions of the arguments the source passes. -/
structure SamrOracle where
  serverHandleOf : String → Nat
  domainSidOf : Nat → String → Nat
  domainHandleOf : Nat → Nat → Nat
  ridOf : Nat → String → Nat
  userHandleOf : Nat → Nat → Nat
  responseOf : SamrSetInfoReq → Nat

/-- The RPC connection collaborator: target host, domain, SAMR endpoint. -/
structure RpcConn where
  host : String
  domain : String
  samr : SamrOracle

/-- `rpcChangePassword(conn, target, new_pass)` (utils.py 150-177),
returning the ordered trace of remote calls alongside the response. -/
def rpcChangePassword (conn : RpcConn) (target new_pass : String) :
    List SamrEvent × Nat :=
  let dce := conn.samr
  let server := conn.host ++ "\x00"
  let server_handle := dce.serverHandleOf server
  let domainSID := dce.domainSidOf server_handle conn.domain
  let domain_handle := dce.domainHandleOf server_handle domainSID
  let userRID := dce.ridOf domain_handle target
  let opened_user := dce.userHandleOf domain_handle userRID
  let req : SamrSetInfoReq :=
    { userHandle := opened_user
      userInformationClass := UserInternal5Information
      bufferTag := UserInternal5Information
      userPassword := cryptPassword systemLibraryDTC new_pass
      passwordExpired := 0 }
  ([.connect server,
    .lookupDomain server_handle conn.domain,
    .openDomain server_handle domainSID,
    .lookupNames domain_handle target,
    .openUser domain_handle userRID,
    .setInfo req],
   dce.responseOf req)

/-! ### Helper lemmas -/

theorem toLEBytes_length (k : Nat) : ∀ v, (toLEBytes k v).length = k := by
  induction k with
  | zero => intro v; rfl
  | succ n ih => intro v; simp [toLEBytes, ih]

theorem rc4prga_length (n : Nat) : ∀ st, (rc4prga n st).length = n := by
  induction n with
  | zero => intro _; rfl
  | succ k ih =>
      intro st
      obtain ⟨S, i, j⟩ := st
      simp [rc4prga, ih]

theorem rc4encrypt_length (key data : List Nat) :
    (rc4encrypt key data).length = data.length := by
  simp [rc4encrypt, List.length_zipWith, rc4prga_length]

/-! Bit-level helper lemmas on `Nat`, used for the idempotence claim about
the account-control update. -/

theorem nat_lor_self_of_land (a b : Nat) (h : a &&& b = b) : a ||| b = a := by
  apply Nat.eq_of_testBit_eq
  intro i
  have hb := congrArg (fun x => Nat.testBit x i) h
  simp only [Nat.testBit_land] at hb
  simp only [Nat.testBit_lor]
  cases h1 : a.testBit i <;> cases h2 : b.testBit i <;> simp_all

theorem nat_ldiff_swap (a b : Nat) (h : Nat.ldiff b a = b) : Nat.ldiff a b = a := by
  apply Nat.eq_of_testBit_eq
  intro i
  have hb := congrArg (fun x => Nat.testBit x i) h
  simp only [Nat.testBit_ldiff] at hb
  simp only [Nat.testBit_ldiff]
  cases h1 : a.testBit i <;> cases h2 : b.testBit i <;> simp_all

theorem nat_land_self_of_lor (a b : Nat) (h : a ||| b = b) : a &&& b = a := by
  apply Nat.eq_of_testBit_eq
  intro i
  have hb := congrArg (fun x => Nat.testBit x i) h
  simp only [Nat.testBit_lor] at hb
  simp only [Nat.testBit_land]
  cases h1 : a.testBit i <;> cases h2 : b.testBit i <;> simp_all

theorem nat_ldiff_self_of_disjoint (a b : Nat) (h : a &&& b = 0) :
    Nat.ldiff a b = a := by
  apply Nat.eq_of_testBit_eq
  intro i
  have hb := congrArg (fun x => Nat.testBit x i) h
  simp only [Nat.testBit_land, Nat.zero_testBit] at hb
  simp only [Nat.testBit_ldiff]
  cases h1 : a.testBit i <;> cases h2 : b.testBit i <;> simp_all

theorem nat_land_self_of_ldiff (a b : Nat) (h : Nat.ldiff a b = 0) :
    a &&& b = a := by
  apply Nat.eq_of_testBit_eq
  intro i
  have hb := congrArg (fun x => Nat.testBit x i) h
  simp only [Nat.testBit_ldiff, Nat.zero_testBit] at hb
  simp only [Nat.testBit_land]
  cases h1 : a.testBit i <;> cases h2 : b.testBit i <;> simp_all

theorem nat_lor_self_of_ldiff (a b : Nat) (h : Nat.ldiff b a = 0) :
    a ||| b = a := by
  apply Nat.eq_of_testBit_eq
  intro i
  have hb := congrArg (fun x => Nat.testBit x i) h
  simp only [Nat.testBit_ldiff, Nat.zero_testBit] at hb
  simp only [Nat.testBit_lor]
  cases h1 : a.testBit i <;> cases h2 : b.testBit i <;> simp_all

/-! ### Claim theorems -/

/-- C1: the claim says `createACE` with `privguid` absent tags the ACE
with the plain access-allowed ACE type.  The code does not: line 17 sets
`AceType` to `ACCESS_ALLOWED_OBJECT_ACE.ACE_TYPE` (0x05) before the
branch on `privguid`, so with `privguid = None` the emitted ACE carries
the object-scoped type tag over a plain access-allowed body. -/
theorem createACE_none_object_tag :
    (createACE (.inl "S-1-1-0") none 983551).aceType =
        ACCESS_ALLOWED_OBJECT_ACE_ACE_TYPE ∧
    ACCESS_ALLOWED_OBJECT_ACE_ACE_TYPE ≠ ACCESS_ALLOWED_ACE_ACE_TYPE ∧
    (createACE (.inl "S-1-1-0") none 983551).ace =
      AceData.allowed { mask := 983551, sid := LDAP_SID.fromCanonical "S-1-1-0" } :=
  ⟨rfl, by decide, rfl⟩

set_option maxRecDepth 8192 in
/-- C2: the claim says a password whose UTF-16LE encoding exceeds 512
bytes fails with `PasswordTooLong`.  The code has no such check: for a
257-character password (514 encoded bytes) it silently builds an
unpadded 514-byte plaintext buffer with declared length 514 and goes on
to encrypt it. -/
theorem samUserPass_overlong_no_failure :
    (samUserPass (String.mk (List.replicate 257 'a'))).buffer.length = 514 ∧
    (samUserPass (String.mk (List.replicate 257 'a'))).length = 514 := by
  constructor <;> rfl

/-- C5: `createEmptySD` returns revision byte 1, reserved byte 0, control
flags 32772, owner `S-1-5-32-544`, empty group, empty SACL, and a DACL
with revision 4, reserved fields zero and no ACEs. -/
theorem createEmptySD_spec :
    createEmptySD.revision = [1] ∧
    createEmptySD.sbz1 = [0] ∧
    createEmptySD.control = 32772 ∧
    createEmptySD.ownerSid = LDAP_SID.fromCanonical "S-1-5-32-544" ∧
    LDAP_SID.fromCanonical "S-1-5-32-544" =
      { revision := 1, identifierAuthority := 5, subAuthorities := [32, 544] } ∧
    createEmptySD.groupSid = [] ∧
    createEmptySD.sacl = [] ∧
    createEmptySD.dacl = { aclRevision := 4, sbz1 := 0, sbz2 := 0, aces := [] } := by
  refine ⟨rfl, rfl, rfl, rfl, ?_, rfl, rfl, rfl⟩
  decide

/-- C3: for a non-DN identity, `resolvDN` keeps only `searchResEntry`
responses and enforces the exactly-one-match contract: zero entries fail
with `NoResultError(base, filter)`, several fail with
`TooManyResultsError(base, filter, entries)`, a single one yields its DN. -/
theorem resolvDN_single_match_contract (conn : Conn) (identity : String)
    (hnd : strContains "dc=" (strLower identity) = false) :
    ((conn.search (getDefaultNamingContext conn) (ldapFilterFor identity)).filter
        (fun e => e.etype == "searchResEntry") = [] →
      resolvDN conn identity =
        .error (.noResult (getDefaultNamingContext conn) (ldapFilterFor identity))) ∧
    (∀ e, (conn.search (getDefaultNamingContext conn) (ldapFilterFor identity)).filter
        (fun e => e.etype == "searchResEntry") = [e] →
      resolvDN conn identity = .ok e.dn) ∧
    (∀ e1 e2 rest,
      (conn.search (getDefaultNamingContext conn) (ldapFilterFor identity)).filter
        (fun e => e.etype == "searchResEntry") = e1 :: e2 :: rest →
      resolvDN conn identity =
        .error (.tooManyResults (getDefaultNamingContext conn) (ldapFilterFor identity)
          (e1 :: e2 :: rest))) := by
  have hr : resolvDN conn identity =
      (match (conn.search (getDefaultNamingContext conn) (ldapFilterFor identity)).filter
          (fun e => e.etype == "searchResEntry") with
        | [] => .error (.noResult (getDefaultNamingContext conn) (ldapFilterFor identity))
        | [e] => .ok e.dn
        | es => .error (.tooManyResults (getDefaultNamingContext conn)
            (ldapFilterFor identity) es)) := by
    unfold resolvDN
    rw [if_neg (by simp [hnd])]
  refine ⟨fun h => ?_, fun e h => ?_, fun e1 e2 rest h => ?_⟩ <;> rw [hr, h]

/-- Directory oracle for the C3 witness: two matching entries and one
referral, so the filtered count is two. -/
def connC3 : Conn :=
  { defaultNamingContext := "DC=corp,DC=test"
    search := fun _ _ =>
      [⟨"searchResEntry", "CN=a,DC=corp,DC=test"⟩,
       ⟨"searchResRef", "ref"⟩,
       ⟨"searchResEntry", "CN=b,DC=corp,DC=test"⟩]
    uacOf := fun _ => []
    modifyResult := 0 }

/-- Witness for C3: an ambiguous account-name lookup (two filtered
entries, the referral not counted) fails with `TooManyResultsError`. -/
theorem resolvDN_single_match_contract_witness :
    resolvDN connC3 "jdoe" =
      .error (.tooManyResults "DC=corp,DC=test" "(sAMAccountName=jdoe)"
        [⟨"searchResEntry", "CN=a,DC=corp,DC=test"⟩,
         ⟨"searchResEntry", "CN=b,DC=corp,DC=test"⟩]) :=
  (resolvDN_single_match_contract connC3 "jdoe" (by decide)).2.2
    ⟨"searchResEntry", "CN=a,DC=corp,DC=test"⟩
    ⟨"searchResEntry", "CN=b,DC=corp,DC=test"⟩ [] (by decide)

/-- C4: `resolvDN` classifies the identity by first match, on the
lowercased string: `dc=` returns it unchanged; otherwise `s-1-` selects
an `objectSid` filter, then `{` an `objectGUID` filter, and anything
else a `sAMAccountName` filter. -/
theorem resolvDN_classification (conn : Conn) (identity : String) :
    (strContains "dc=" (strLower identity) = true →
      resolvDN conn identity = .ok identity) ∧
    (strContains "dc=" (strLower identity) = false →
      strContains "s-1-" (strLower identity) = true →
      ldapFilterFor identity = "(objectSid=" ++ identity ++ ")") ∧
    (strContains "dc=" (strLower identity) = false →
      strContains "s-1-" (strLower identity) = false →
      strContains "\x7b" identity = true →
      ldapFilterFor identity = "(objectGUID=" ++ identity ++ ")") ∧
    (strContains "dc=" (strLower identity) = false →
      strContains "s-1-" (strLower identity) = false →
      strContains "\x7b" identity = false →
      ldapFilterFor identity = "(sAMAccountName=" ++ identity ++ ")") := by
  refine ⟨fun h => ?_, fun h1 h2 => ?_, fun h1 h2 h3 => ?_, fun h1 h2 h3 => ?_⟩
  · unfold resolvDN
    rw [if_pos h]
  · unfold ldapFilterFor
    rw [if_pos h2]
  · unfold ldapFilterFor
    rw [if_neg (by simp [h2]), if_pos h3]
  · unfold ldapFilterFor
    rw [if_neg (by simp [h2]), if_neg (by simp [h3])]

/-- Directory oracle for the C4 witness (never searched on the DN path). -/
def connC4 : Conn :=
  { defaultNamingContext := "DC=x"
    search := fun _ _ => []
    uacOf := fun _ => []
    modifyResult := 0 }

/-- Witness for C4: one concrete identity per classification case,
including the mixed-case DN. -/
theorem resolvDN_classification_witness :
    resolvDN connC4 "CN=x,DC=y" = .ok "CN=x,DC=y" ∧
    ldapFilterFor "S-1-5-21-1111111111-2222222222-3333333333-500" =
      "(objectSid=S-1-5-21-1111111111-2222222222-3333333333-500)" ∧
    ldapFilterFor "{12345678-1234-1234-1234-123456789012}" =
      "(objectGUID={12345678-1234-1234-1234-123456789012})" ∧
    ldapFilterFor "jdoe" = "(sAMAccountName=jdoe)" :=
  ⟨(resolvDN_classification connC4 "CN=x,DC=y").1 (by decide),
   (resolvDN_classification connC4 "S-1-5-21-1111111111-2222222222-3333333333-500").2.1
     (by decide) (by decide),
   (resolvDN_classification connC4 "{12345678-1234-1234-1234-123456789012}").2.2.1
     (by decide) (by decide) (by decide),
   (resolvDN_classification connC4 "jdoe").2.2.2
     (by decide) (by decide) (by decide)⟩

/-- C6: on a resolved object whose current `userAccountControl` is `v`,
the toggler submits one replace-modify carrying `v OR flag` when enable
holds and `v AND NOT flag` otherwise, succeeds exactly on modify result
code 0, and raises `ResultError` with the result otherwise. -/
theorem userAccountControl_replace_modify (conn : Conn) (identity enable : String)
    (flag : Int) (dn : String) (v : Int) (rest : List Int)
    (h1 : resolvDN conn identity = .ok dn)
    (h2 : conn.uacOf dn = v :: rest) :
    (userAccountControl conn identity enable flag).submitted =
      [{ dn := dn
         attrName := "userAccountControl"
         operation := "MODIFY_REPLACE"
         values := [if uacEnable enable then Int.lor v flag
                    else Int.land v (Int.lnot flag)] }] ∧
    (conn.modifyResult = 0 →
      (userAccountControl conn identity enable flag).result = .ok ()) ∧
    (conn.modifyResult ≠ 0 →
      (userAccountControl conn identity enable flag).result =
        .error (.resultError conn.modifyResult)) := by
  have huac : userAccountControl conn identity enable flag =
      { submitted :=
          [{ dn := dn
             attrName := "userAccountControl"
             operation := "MODIFY_REPLACE"
             values := [if uacEnable enable then Int.lor v flag
                        else Int.land v (Int.lnot flag)] }]
        result :=
          if conn.modifyResult = 0 then .ok ()
          else .error (.resultError conn.modifyResult) } := by
    simp only [userAccountControl, h1, h2, newUac]
  rw [huac]
  exact ⟨rfl, fun h => by simp [h], fun h => by simp [h]⟩

/-- Directory oracle for the C6 witness: one matching account with
`userAccountControl = 0x0200`, modify succeeding. -/
def connC6 : Conn :=
  { defaultNamingContext := "DC=corp,DC=test"
    search := fun _ _ => [⟨"searchResEntry", "CN=svc,CN=Users,DC=corp,DC=test"⟩]
    uacOf := fun _ => [512]
    modifyResult := 0 }

/-- Witness for C6: enabling flag `0x0002` on current value `0x0200`
submits `0x0202` via replace-modify and succeeds. -/
theorem userAccountControl_replace_modify_witness :
    (userAccountControl connC6 "svc" "True" 2).submitted =
      [{ dn := "CN=svc,CN=Users,DC=corp,DC=test"
         attrName := "userAccountControl"
         operation := "MODIFY_REPLACE"
         values := [514] }] ∧
    (userAccountControl connC6 "svc" "True" 2).result = .ok () := by
  have h := userAccountControl_replace_modify connC6 "svc" "True" 2
    "CN=svc,CN=Users,DC=corp,DC=test" 512 [] rfl rfl
  refine ⟨?_, h.2.1 rfl⟩
  rw [h.1]
  decide

/-- C7: `rpcChangePassword` performs exactly the six remote calls in
order — connect, domain lookup, domain open, account lookup, user open,
set-user-information — each consuming the previous step's handle, and
the final request carries the password buffer encrypted under the fixed
16-byte key `b'SystemLibraryDTC'` with the password-expired flag 0. -/
theorem rpcChangePassword_sequence (conn : RpcConn) (target new_pass : String) :
    (rpcChangePassword conn target new_pass).1 =
      [SamrEvent.connect (conn.host ++ "\x00"),
       SamrEvent.lookupDomain (conn.samr.serverHandleOf (conn.host ++ "\x00")) conn.domain,
       SamrEvent.openDomain (conn.samr.serverHandleOf (conn.host ++ "\x00"))
         (conn.samr.domainSidOf (conn.samr.serverHandleOf (conn.host ++ "\x00")) conn.domain),
       SamrEvent.lookupNames
         (conn.samr.domainHandleOf (conn.samr.serverHandleOf (conn.host ++ "\x00"))
           (conn.samr.domainSidOf (conn.samr.serverHandleOf (conn.host ++ "\x00")) conn.domain))
         target,
       SamrEvent.openUser
         (conn.samr.domainHandleOf (conn.samr.serverHandleOf (conn.host ++ "\x00"))
           (conn.samr.domainSidOf (conn.samr.serverHandleOf (conn.host ++ "\x00")) conn.domain))
         (conn.samr.ridOf
           (conn.samr.domainHandleOf (conn.samr.serverHandleOf (conn.host ++ "\x00"))
             (conn.samr.domainSidOf (conn.samr.serverHandleOf (conn.host ++ "\x00")) conn.domain))
           target),
       SamrEvent.setInfo
         { userHandle :=
             conn.samr.userHandleOf
               (conn.samr.domainHandleOf (conn.samr.serverHandleOf (conn.host ++ "\x00"))
                 (conn.samr.domainSidOf (conn.samr.serverHandleOf (conn.host ++ "\x00"))
                   conn.domain))
               (conn.samr.ridOf
                 (conn.samr.domainHandleOf (conn.samr.serverHandleOf (conn.host ++ "\x00"))
                   (conn.samr.domainSidOf (conn.samr.serverHandleOf (conn.host ++ "\x00"))
                     conn.domain))
                 target)
           userInformationClass := UserInternal5Information
           bufferTag := UserInternal5Information
           userPassword := cryptPassword systemLibraryDTC new_pass
           passwordExpired := 0 }] ∧
    systemLibraryDTC.length = 16 :=
  ⟨rfl, by decide⟩

/-- C8: the toggler's `enable` argument is compared against the literal
string `"True"`; exactly that string enables, every other string is
treated as false. -/
theorem uacEnable_iff (s : String) : uacEnable s = true ↔ s = "True" := by
  simp [uacEnable]

/-- C9: the account-control update is idempotent: enabling a flag whose
bits are already set leaves the value unchanged, and disabling a flag
none of whose bits are set leaves the value unchanged — over Python's
arbitrary-precision two's-complement integers. -/
theorem newUac_idempotent (v f : Int) :
    (Int.land v f = f → newUac true v f = v) ∧
    (Int.land v f = 0 → newUac false v f = v) := by
  constructor
  · intro h
    show Int.lor v f = v
    cases v with
    | ofNat a =>
        cases f with
        | ofNat b =>
            exact congrArg Int.ofNat
              (nat_lor_self_of_land a b (Int.ofNat.inj h))
        | negSucc b =>
            exact Int.noConfusion (show Int.ofNat (Nat.ldiff a b) = Int.negSucc b from h)
    | negSucc a =>
        cases f with
        | ofNat b =>
            exact congrArg Int.negSucc
              (nat_ldiff_swap a b (Int.ofNat.inj h))
        | negSucc b =>
            exact congrArg Int.negSucc
              (nat_land_self_of_lor a b (Int.negSucc.inj h))
  · intro h
    show Int.land v (Int.lnot f) = v
    cases v with
    | ofNat a =>
        cases f with
        | ofNat b =>
            exact congrArg Int.ofNat
              (nat_ldiff_self_of_disjoint a b (Int.ofNat.inj h))
        | negSucc b =>
            exact congrArg Int.ofNat
              (nat_land_self_of_ldiff a b (Int.ofNat.inj h))
    | negSucc a =>
        cases f with
        | ofNat b =>
            exact congrArg Int.negSucc
              (nat_lor_self_of_ldiff a b (Int.ofNat.inj h))
        | negSucc b =>
            exact Int.noConfusion (show Int.negSucc (a ||| b) = Int.ofNat 0 from h)

/-- Witness for C9: flag `0x0002` already set in `0x0202` under enable,
and absent from `0x0200` under disable; both updates are the identity. -/
theorem newUac_idempotent_witness :
    newUac true 514 2 = 514 ∧ newUac false 512 2 = 512 :=
  ⟨(newUac_idempotent 514 2).1 (by decide),
   (newUac_idempotent 512 2).2 (by decide)⟩

/-- C10: for a password whose UTF-16LE encoding fits the 512-byte
buffer, the ciphertext is the RC4 encryption, under the session key, of
the padded 512-byte buffer immediately followed by the 4-byte
little-endian declared length — 516 bytes in total, the length field
being inside the encrypted data. -/
theorem cryptPassword_encrypted_layout (session_key : List Nat) (password : String)
    (h : (encodeUtf16le password).length ≤ 512) :
    (cryptPassword session_key password).buffer =
      rc4encrypt session_key
        ((List.replicate (512 - (encodeUtf16le password).length) 0x41 ++
            encodeUtf16le password) ++
          toLEBytes 4 (encodeUtf16le password).length) ∧
    (cryptPassword session_key password).buffer.length = 516 := by
  constructor
  · rfl
  · show (rc4encrypt session_key (samUserPass password).getData).length = 516
    rw [rc4encrypt_length]
    simp only [SAMPR_USER_PASSWORD.getData, samUserPass, List.length_append,
      List.length_replicate, toLEBytes_length]
    omega

/-- Witness for C10: a concrete session key and password. -/
theorem cryptPassword_encrypted_layout_witness :
    (cryptPassword systemLibraryDTC "NewPass01!").buffer =
      rc4encrypt systemLibraryDTC
        ((List.replicate (512 - (encodeUtf16le "NewPass01!").length) 0x41 ++
            encodeUtf16le "NewPass01!") ++
          toLEBytes 4 (encodeUtf16le "NewPass01!").length) ∧
    (cryptPassword systemLibraryDTC "NewPass01!").buffer.length = 516 :=
  cryptPassword_encrypted_layout systemLibraryDTC "NewPass01!" (by decide)

end BloodyAD
